import Mathlib

/-!
Shallow embedding of the Spotify Top-50 extraction pipeline
(`spotify_data.py`) and proofs of its specified properties.

JSON payloads returned by the catalog API are modelled by the inductive
type `Value`.  Python subscripting `d[k]` is modelled by `Value.getField`,
which fails (as Python raises `KeyError` / `TypeError`) when the key is
absent or the value is not an object; iteration over a JSON array is
`Value.getArr`.  Each extraction method of the `Extractor` class is
translated into a Lean function over `Value`, with the `SpotifyAPI`
methods it calls passed in as function parameters (the HTTP layer is an
external collaborator).  The flattener `format_extracted_data` is
translated over the typed record shape that the pipeline itself
constructs (one enriched track per chart entry).
-/

set_option autoImplicit false

namespace Spotify

/-- JSON values as returned by the catalog API. Python dicts preserve
insertion order, hence objects are ordered association lists. -/
inductive Value where
  | null
  | bool (b : Bool)
  | int (n : Int)
  | num (q : ℚ)
  | str (s : String)
  | arr (elems : List Value)
  | obj (fields : List (String × Value))

/-- Lookup of a key in an ordered association list; Python raises
`KeyError` when the key is absent. -/
def lookupField : List (String × Value) → String → Except String Value
  | [], k => .error ("KeyError: " ++ k)
  | (k', v) :: rest, k => if k' == k then .ok v else lookupField rest k

/-- Python subscripting `d[k]`: fails on a missing key (`KeyError`) and on
a non-object receiver (`TypeError`). -/
def Value.getField : Value → String → Except String Value
  | .obj fs, k => lookupField fs k
  | _, k => .error ("TypeError: value is not subscriptable at key " ++ k)

/-- Python iteration `for x in v`: requires a JSON array. -/
def Value.getArr : Value → Except String (List Value)
  | .arr l => .ok l
  | _ => .error "TypeError: value is not iterable"

/-- Python substring test `pat in s` requires a string receiver. -/
def Value.getStr : Value → Except String String
  | .str s => .ok s
  | _ => .error "TypeError: argument of type is not a string"

/-- Python dict assignment `d[k] = v`: replaces the first binding of `k`
if present, otherwise appends the new binding at the end (insertion
order); fails on a non-object receiver. -/
def setField : List (String × Value) → String → Value → List (String × Value)
  | [], k, v => [(k, v)]
  | (k', v') :: rest, k, v =>
    if k' == k then (k', v) :: rest else (k', v') :: setField rest k v

/-- Python dict assignment on a JSON value. -/
def Value.setKey : Value → String → Value → Except String Value
  | .obj fs, k, v => .ok (.obj (setField fs k v))
  | _, _, _ => .error "TypeError: item assignment unsupported"

/-- Character-list version of `String.startsWith` on explicit lists. -/
def charsStartWith : List Char → List Char → Bool
  | [], _ => true
  | _ :: _, [] => false
  | p :: ps, c :: cs => p == c && charsStartWith ps cs

/-- Contiguous-substring test on character lists. -/
def charsContain (pat : List Char) : List Char → Bool
  | [] => charsStartWith pat []
  | c :: cs => charsStartWith pat (c :: cs) || charsContain pat cs

/-- Python substring containment `pat in s` for strings. -/
def strContains (s pat : String) : Bool :=
  charsContain pat.toList s.toList

/-- Effectful map over a list, mirroring a Python list comprehension or
accumulation loop: the first failing element aborts the whole loop. -/
def mapE : List Value → (Value → Except String Value) → Except String (List Value)
  | [], _ => .ok []
  | v :: vs, f => do
    let b ← f v
    let bs ← mapE vs f
    .ok ( b :: bs)

/-- Selection predicate of the `for` loop in `extract_top50_global`
(line 33): the playlist name contains both "Top 50" and the Polish
localization of "World". -/
def globalNameMatches (s : String) : Bool :=
  strContains s "Top 50" && strContains s "Świat"

/-- Loop body of `extract_top50_global` over `playlists['playlists']['items']`:
returns the name/id record of the first matching item, `none` if the loop
falls through (the Python function implicitly returns `None`). -/
def findTop50Global : List Value → Except String (Option Value)
  | [] => .ok none
  | item :: rest => do
    let nameV ← item.getField "name"
    let nameS ← nameV.getStr
    if globalNameMatches nameS then
      let nameV2 ← item.getField "name"
      let idV ← item.getField "id"
      .ok (some (.obj [("name", nameV2), ("id", idV)]))
    else
      findTop50Global rest

/-- Category id used by `extract_raw_data` (module constant `CATEGORY_ID`). -/
def CATEGORY_ID : String := "toplists"

/-- Embedding of `Extractor.extract_top50_global`: lists the playlists of
the category in market "PL" and scans them for the global Top 50 chart. -/
def extract_top50_global (get_playlists_from_category : String → String → Value)
    (category_id : String) : Except String (Option Value) := do
  let playlists := get_playlists_from_category category_id "PL"
  let pls ← playlists.getField "playlists"
  let itemsV ← pls.getField "items"
  let items ← itemsV.getArr
  findTop50Global items

/-- Selection predicate of the `for` loop in `extract_top50_playlist`
(lines 53-55): description contains "most played tracks" and neither
"Global" nor "USA". -/
def marketDescMatches (s : String) : Bool :=
  strContains s "most played tracks" && !strContains s "Global" && !strContains s "USA"

/-- Loop body of `extract_top50_playlist` over the playlist items. -/
def findTop50Market : List Value → Except String (Option Value)
  | [] => .ok none
  | item :: rest => do
    let descV ← item.getField "description"
    let descS ← descV.getStr
    if marketDescMatches descS then
      let nameV ← item.getField "name"
      let idV ← item.getField "id"
      .ok (some (.obj [("name", nameV), ("id", idV)]))
    else
      findTop50Market rest

/-- Embedding of `Extractor.extract_top50_playlist`. -/
def extract_top50_playlist (get_playlists_from_category : String → String → Value)
    (category_id country_code : String) : Except String (Option Value) := do
  let playlists := get_playlists_from_category category_id country_code
  let pls ← playlists.getField "playlists"
  let itemsV ← pls.getField "items"
  let items ← itemsV.getArr
  findTop50Market items

/-- Loop body of `extract_playlist_tracks` for one element of
`tracks_raw_data['items']` (lines 75-88): builds the track record dict
(in Python dict-literal insertion order), then fills `artists_followers`
by one `get_artist_info` call per artist, in artist order. -/
def extractTrackItem (get_artist_info : Value → Value) (item : Value) :
    Except String Value := do
  let track ← item.getField "track"
  let nameV ← track.getField "name"
  let artistsV ← track.getField "artists"
  let artistObjs ← artistsV.getArr
  let artistNames ← mapE artistObjs (fun a => a.getField "name")
  let idV ← track.getField "id"
  let albumV ← track.getField "album"
  let albumName ← albumV.getField "name"
  let albumV2 ← track.getField "album"
  let releaseDate ← albumV2.getField "release_date"
  let popularityV ← track.getField "popularity"
  let followers ← mapE artistObjs (fun a => do
    let aid ← a.getField "id"
    let adata := get_artist_info aid
    let fol ← adata.getField "followers"
    fol.getField "total")
  .ok (Value.obj [("name", nameV), ("artists", .arr artistNames), ("id", idV),
    ("album", albumName), ("release_date", releaseDate),
    ("artists_followers", .arr followers), ("popularity", popularityV)])

/-- Embedding of `Extractor.extract_playlist_tracks`: fetches the raw
track listing of the playlist and extracts one record per item. -/
def extract_playlist_tracks (get_tracks_from_playlist get_artist_info : Value → Value)
    (playlist_id : Value) : Except String (List Value) := do
  let tracks_raw_data := get_tracks_from_playlist playlist_id
  let itemsV ← tracks_raw_data.getField "items"
  let items ← itemsV.getArr
  mapE items (extractTrackItem get_artist_info)

/-- Embedding of `Extractor.extract_track_features`: selects the ten
audio-feature fields from the features response, in source order. -/
def extract_track_features (get_track_features : Value → Value)
    (track_id : Value) : Except String Value := do
  let features := get_track_features track_id
  let acousticnessV ← features.getField "acousticness"
  let danceabilityV ← features.getField "danceability"
  let durationV ← features.getField "duration_ms"
  let energyV ← features.getField "energy"
  let instrumentalnessV ← features.getField "instrumentalness"
  let livenessV ← features.getField "liveness"
  let loudnessV ← features.getField "loudness"
  let speechinessV ← features.getField "speechiness"
  let tempoV ← features.getField "tempo"
  let valenceV ← features.getField "valence"
  .ok (Value.obj [("acousticness", acousticnessV), ("danceability", danceabilityV),
    ("duration_ms", durationV), ("energy", energyV),
    ("instrumentalness", instrumentalnessV), ("liveness", livenessV),
    ("loudness", loudnessV), ("speechiness", speechinessV),
    ("tempo", tempoV), ("valence", valenceV)])

/-- Embedding of `Extractor.extract_track_audio_analysis`: two timing
scalars copied from the response's `track` object, and the two counts
computed as lengths of the `sections` and `segments` arrays. -/
def extract_track_audio_analysis (get_track_audio_analysis : Value → Value)
    (track_id : Value) : Except String Value := do
  let analysis := get_track_audio_analysis track_id
  let trackV ← analysis.getField "track"
  let fadeInV ← trackV.getField "end_of_fade_in"
  let trackV2 ← analysis.getField "track"
  let fadeOutV ← trackV2.getField "start_of_fade_out"
  let sectionsV ← analysis.getField "sections"
  let sections ← sectionsV.getArr
  let segmentsV ← analysis.getField "segments"
  let segments ← segmentsV.getArr
  .ok (Value.obj [("end_of_fade_in", fadeInV), ("start_of_fade_out", fadeOutV),
    ("sections_number", .int sections.length),
    ("segments_number", .int segments.length)])

/-- Methods of the `SpotifyAPI` collaborator used by `extract_raw_data`,
each modelled as a pure function from request to parsed JSON response. -/
structure SpotifyAPI where
  get_playlists_from_category : String → String → Value
  get_tracks_from_playlist : Value → Value
  get_track_features : Value → Value
  get_track_audio_analysis : Value → Value
  get_artist_info : Value → Value

/-- Embedding of `Extractor.add_tracks_information`: adds the `features`
and `analysis` keys to every track dict, one features call and one
analysis call per track. -/
def add_tracks_information (api : SpotifyAPI) (tracks : List Value) :
    Except String (List Value) :=
  mapE tracks (fun track => do
    let idV ← track.getField "id"
    let feats ← extract_track_features api.get_track_features idV
    let track1 ← track.setKey "features" feats
    let idV2 ← track1.getField "id"
    let analysisV ← extract_track_audio_analysis api.get_track_audio_analysis idV2
    track1.setKey "analysis" analysisV)

/-- Python subscripting applied to the result of a locator: subscripting
`None` (locator fell through without a match) raises a `TypeError`. -/
def subscriptOpt : Option Value → String → Except String Value
  | none, k => .error ("TypeError: NoneType is not subscriptable at key " ++ k)
  | some v, k => v.getField k

/-- Per-country loop body of `extract_raw_data` (lines 166-169): locate
the market's Top 50 chart, surface its name, then fetch and enrich its
tracks.  The `time.sleep(2)` pacing delay has no effect on the data flow
and is not modelled. -/
def processCountry (api : SpotifyAPI) (country : String) :
    Except String (List Value) := do
  let top50_playlist ← extract_top50_playlist api.get_playlists_from_category
    CATEGORY_ID country
  let _nameV ← subscriptOpt top50_playlist "name"
  let pid ← subscriptOpt top50_playlist "id"
  let tracks ← extract_playlist_tracks api.get_tracks_from_playlist
    api.get_artist_info pid
  add_tracks_information api tracks

/-- The per-country `for` loop of `extract_raw_data`, threading the
accumulated `country_data` ordered mapping. -/
def processCountries (api : SpotifyAPI) :
    List String → List (String × List Value) →
    Except String (List (String × List Value))
  | [], acc => .ok acc
  | c :: cs, acc => do
    let cdata ← processCountry api c
    processCountries api cs (acc ++ [(c, cdata)])

/-- Embedding of `Extractor.extract_raw_data`: global chart first (keyed
"GLOBAL"), then each requested country in order.  The `print` calls are
modelled only by the subscript on `'name'` they perform (which can fail);
their output is ignored. -/
def extract_raw_data (api : SpotifyAPI) (countries : List String) :
    Except String (List (String × List Value)) := do
  let top50_global ← extract_top50_global api.get_playlists_from_category CATEGORY_ID
  let gid ← subscriptOpt top50_global "id"
  let tracks ← extract_playlist_tracks api.get_tracks_from_playlist
    api.get_artist_info gid
  let _nameV ← subscriptOpt top50_global "name"
  let gdata ← add_tracks_information api tracks
  processCountries api countries [("GLOBAL", gdata)]

/-- Ten audio-feature descriptors of a track (`features` sub-dict). -/
structure AudioFeatures where
  acousticness : Value
  danceability : Value
  duration_ms : Value
  energy : Value
  instrumentalness : Value
  liveness : Value
  loudness : Value
  speechiness : Value
  tempo : Value
  valence : Value

/-- Audio-analysis summary of a track (`analysis` sub-dict). -/
structure AudioAnalysisSummary where
  end_of_fade_in : Value
  start_of_fade_out : Value
  sections_number : Value
  segments_number : Value

/-- One enriched track record as consumed by `format_extracted_data`:
exactly the fields that `extract_playlist_tracks` and
`add_tracks_information` place in each track dict. -/
structure EnrichedTrack where
  name : Value
  artists : List Value
  id : Value
  album : Value
  release_date : Value
  artists_followers : List Value
  popularity : Value
  features : AudioFeatures
  analysis : AudioAnalysisSummary

/-- The column-oriented output table of `format_extracted_data`: one list
per key of the `formatted_data` dict literal (lines 185-209). -/
@[ext]
structure FormattedData where
  market : List Value
  rank : List Value
  name : List Value
  artists : List Value
  artists_followers : List Value
  id : List Value
  album : List Value
  release_date : List Value
  popularity : List Value
  acousticness : List Value
  danceability : List Value
  duration_ms : List Value
  energy : List Value
  instrumentalness : List Value
  liveness : List Value
  loudness : List Value
  speechiness : List Value
  tempo : List Value
  valence : List Value
  end_of_fade_in : List Value
  start_of_fade_out : List Value
  sections_number : List Value
  segments_number : List Value

/-- The initial `formatted_data` dict: every column empty. -/
@[simps]
def FormattedData.empty : FormattedData where
  market := []
  rank := []
  name := []
  artists := []
  artists_followers := []
  id := []
  album := []
  release_date := []
  popularity := []
  acousticness := []
  danceability := []
  duration_ms := []
  energy := []
  instrumentalness := []
  liveness := []
  loudness := []
  speechiness := []
  tempo := []
  valence := []
  end_of_fade_in := []
  start_of_fade_out := []
  sections_number := []
  segments_number := []

/-- Columnwise concatenation of two tables. -/
@[simps]
def FormattedData.append (a b : FormattedData) : FormattedData where
  market := a.market ++ b.market
  rank := a.rank ++ b.rank
  name := a.name ++ b.name
  artists := a.artists ++ b.artists
  artists_followers := a.artists_followers ++ b.artists_followers
  id := a.id ++ b.id
  album := a.album ++ b.album
  release_date := a.release_date ++ b.release_date
  popularity := a.popularity ++ b.popularity
  acousticness := a.acousticness ++ b.acousticness
  danceability := a.danceability ++ b.danceability
  duration_ms := a.duration_ms ++ b.duration_ms
  energy := a.energy ++ b.energy
  instrumentalness := a.instrumentalness ++ b.instrumentalness
  liveness := a.liveness ++ b.liveness
  loudness := a.loudness ++ b.loudness
  speechiness := a.speechiness ++ b.speechiness
  tempo := a.tempo ++ b.tempo
  valence := a.valence ++ b.valence
  end_of_fade_in := a.end_of_fade_in ++ b.end_of_fade_in
  start_of_fade_out := a.start_of_fade_out ++ b.start_of_fade_out
  sections_number := a.sections_number ++ b.sections_number
  segments_number := a.segments_number ++ b.segments_number

/-- Body of the inner `for track in country_data[country_code]` loop
(lines 214-237): appends one value to every column of the table. -/
@[simps]
def appendTrack (fd : FormattedData) (country_code : String)
    (track_number : Int) (t : EnrichedTrack) : FormattedData where
  market := fd.market ++ [.str country_code]
  rank := fd.rank ++ [.int track_number]
  name := fd.name ++ [t.name]
  artists := fd.artists ++ [.arr t.artists]
  artists_followers := fd.artists_followers ++ [.arr t.artists_followers]
  id := fd.id ++ [t.id]
  album := fd.album ++ [t.album]
  release_date := fd.release_date ++ [t.release_date]
  popularity := fd.popularity ++ [t.popularity]
  acousticness := fd.acousticness ++ [t.features.acousticness]
  danceability := fd.danceability ++ [t.features.danceability]
  duration_ms := fd.duration_ms ++ [t.features.duration_ms]
  energy := fd.energy ++ [t.features.energy]
  instrumentalness := fd.instrumentalness ++ [t.features.instrumentalness]
  liveness := fd.liveness ++ [t.features.liveness]
  loudness := fd.loudness ++ [t.features.loudness]
  speechiness := fd.speechiness ++ [t.features.speechiness]
  tempo := fd.tempo ++ [t.features.tempo]
  valence := fd.valence ++ [t.features.valence]
  end_of_fade_in := fd.end_of_fade_in ++ [t.analysis.end_of_fade_in]
  start_of_fade_out := fd.start_of_fade_out ++ [t.analysis.start_of_fade_out]
  sections_number := fd.sections_number ++ [t.analysis.sections_number]
  segments_number := fd.segments_number ++ [t.analysis.segments_number]

/-- Inner loop of `format_extracted_data` over one market's track list,
threading the running `track_number` counter. -/
def formatTracks (fd : FormattedData) (country_code : String) :
    Int → List EnrichedTrack → FormattedData
  | _, [] => fd
  | n, t :: ts => formatTracks (appendTrack fd country_code n t) country_code (n + 1) ts

/-- Embedding of `Extractor.format_extracted_data`: iterate the markets
of `country_data` in mapping order (Python dicts iterate in insertion
order, hence the input is an ordered association list), resetting
`track_number` to 1 for each market. -/
def format_extracted_data (country_data : List (String × List EnrichedTrack)) :
    FormattedData :=
  country_data.foldl (fun fd p => formatTracks fd p.1 1 p.2) FormattedData.empty

/-- The output table as the ordered column-name-to-column mapping that
the Python dict `formatted_data` is, in dict-literal key order. -/
def FormattedData.columns (fd : FormattedData) : List (String × List Value) :=
  [("market", fd.market), ("rank", fd.rank), ("name", fd.name),
   ("artists", fd.artists), ("artists_followers", fd.artists_followers),
   ("id", fd.id), ("album", fd.album), ("release_date", fd.release_date),
   ("popularity", fd.popularity), ("acousticness", fd.acousticness),
   ("danceability", fd.danceability), ("duration_ms", fd.duration_ms),
   ("energy", fd.energy), ("instrumentalness", fd.instrumentalness),
   ("liveness", fd.liveness), ("loudness", fd.loudness),
   ("speechiness", fd.speechiness), ("tempo", fd.tempo),
   ("valence", fd.valence), ("end_of_fade_in", fd.end_of_fade_in),
   ("start_of_fade_out", fd.start_of_fade_out),
   ("sections_number", fd.sections_number),
   ("segments_number", fd.segments_number)]

/-- Rank values `n, n+1, ...` emitted for `k` consecutive tracks. -/
def rankList (n : Int) : Nat → List Value
  | 0 => []
  | k + 1 => Value.int n :: rankList (n + 1) k

/-- Closed form of the rows contributed by one market: each column is a
map over its track list (rank counts from `n`). -/
@[simps]
def marketBlock (country_code : String) (n : Int) (ts : List EnrichedTrack) :
    FormattedData where
  market := ts.map (fun _ => .str country_code)
  rank := rankList n ts.length
  name := ts.map (fun t => t.name)
  artists := ts.map (fun t => .arr t.artists)
  artists_followers := ts.map (fun t => .arr t.artists_followers)
  id := ts.map (fun t => t.id)
  album := ts.map (fun t => t.album)
  release_date := ts.map (fun t => t.release_date)
  popularity := ts.map (fun t => t.popularity)
  acousticness := ts.map (fun t => t.features.acousticness)
  danceability := ts.map (fun t => t.features.danceability)
  duration_ms := ts.map (fun t => t.features.duration_ms)
  energy := ts.map (fun t => t.features.energy)
  instrumentalness := ts.map (fun t => t.features.instrumentalness)
  liveness := ts.map (fun t => t.features.liveness)
  loudness := ts.map (fun t => t.features.loudness)
  speechiness := ts.map (fun t => t.features.speechiness)
  tempo := ts.map (fun t => t.features.tempo)
  valence := ts.map (fun t => t.features.valence)
  end_of_fade_in := ts.map (fun t => t.analysis.end_of_fade_in)
  start_of_fade_out := ts.map (fun t => t.analysis.start_of_fade_out)
  sections_number := ts.map (fun t => t.analysis.sections_number)
  segments_number := ts.map (fun t => t.analysis.segments_number)

theorem FormattedData.append_empty (a : FormattedData) :
    a.append FormattedData.empty = a := by
  ext <;> simp [append, empty]

theorem FormattedData.empty_append (b : FormattedData) :
    FormattedData.empty.append b = b := by
  ext <;> simp [append, empty]

theorem FormattedData.append_assoc (a b c : FormattedData) :
    (a.append b).append c = a.append (b.append c) := by
  ext <;> simp [append]

/-- The inner loop acting on an already-populated table only appends the
market's closed-form block to every column. -/
theorem formatTracks_eq_append (cc : String) (ts : List EnrichedTrack) :
    ∀ (fd : FormattedData) (n : Int),
      formatTracks fd cc n ts = fd.append (marketBlock cc n ts) := by
  induction ts with
  | nil =>
    intro fd n
    ext <;> simp [formatTracks, FormattedData.append, marketBlock, rankList]
  | cons t ts ih =>
    intro fd n
    rw [formatTracks, ih]
    ext <;> simp [FormattedData.append, marketBlock, appendTrack, rankList]

/-- The outer loop of the flattener run from any already-populated table
appends exactly the table computed from the input alone: the result
depends on nothing but the explicit accumulator and the input. -/
theorem foldl_formatTracks_append (d : List (String × List EnrichedTrack)) :
    ∀ fd : FormattedData,
      d.foldl (fun fd p => formatTracks fd p.1 1 p.2) fd =
        fd.append (format_extracted_data d) := by
  induction d with
  | nil =>
    intro fd
    simp [format_extracted_data, FormattedData.append_empty]
  | cons q d ih =>
    intro fd
    have h1 : format_extracted_data (q :: d) =
        (formatTracks FormattedData.empty q.1 1 q.2).append (format_extracted_data d) := by
      simp only [format_extracted_data, List.foldl_cons]
      exact ih _
    rw [List.foldl_cons, ih, h1, formatTracks_eq_append, formatTracks_eq_append,
      FormattedData.empty_append, FormattedData.append_assoc]

/-- Unfolding one market of the outer loop. -/
theorem format_extracted_data_cons (p : String × List EnrichedTrack)
    (d : List (String × List EnrichedTrack)) :
    format_extracted_data (p :: d) =
      (marketBlock p.1 1 p.2).append (format_extracted_data d) := by
  have h1 : format_extracted_data (p :: d) =
      (formatTracks FormattedData.empty p.1 1 p.2).append (format_extracted_data d) := by
    simp only [format_extracted_data, List.foldl_cons]
    exact foldl_formatTracks_append _ _
  rw [h1, formatTracks_eq_append, FormattedData.empty_append]

theorem format_extracted_data_nil :
    format_extracted_data [] = FormattedData.empty := rfl

@[simp]
theorem error_bind {α β : Type} (e : String) (g : α → Except String β) :
    (Except.error e : Except String α) >>= g = .error e := rfl

@[simp]
theorem ok_bind {α β : Type} (a : α) (g : α → Except String β) :
    (Except.ok a : Except String α) >>= g = g a := rfl

theorem exceptBind_error_assoc {α β γ : Type} {x : Except String α}
    {g : α → Except String β} {k : α → β → Except String γ} {e : String}
    (h : (x >>= fun a => g a) = .error e) :
    (x >>= fun a => g a >>= k a) = .error e := by
  cases x with
  | error e' =>
    simp only [error_bind] at h ⊢
    cases h
    rfl
  | ok a =>
    simp only [ok_bind] at h ⊢
    rw [h]
    rfl

theorem exceptBind_ok {α β : Type} {x : Except String α} {g : α → Except String β}
    {r : β} (h : x >>= g = .ok r) : ∃ a, x = .ok a ∧ g a = .ok r := by
  cases x with
  | error e => simp at h
  | ok a => exact ⟨a, rfl, h⟩

theorem mapE_ok_length {l : List Value} {f : Value → Except String Value}
    {l' : List Value} (h : mapE l f = .ok l') : l'.length = l.length := by
  induction l generalizing l' with
  | nil =>
    simp only [mapE] at h
    cases h
    rfl
  | cons v vs ih =>
    simp only [mapE] at h
    obtain ⟨b, hb, h⟩ := exceptBind_ok h
    obtain ⟨bs, hbs, h⟩ := exceptBind_ok h
    cases h
    simp [ih hbs]

theorem mapE_ok_mem {l : List Value} {f : Value → Except String Value}
    {l' : List Value} (h : mapE l f = .ok l') :
    ∀ b ∈ l', ∃ a ∈ l, f a = .ok b := by
  induction l generalizing l' with
  | nil =>
    simp only [mapE] at h
    cases h
    simp
  | cons v vs ih =>
    simp only [mapE] at h
    obtain ⟨b, hb, h⟩ := exceptBind_ok h
    obtain ⟨bs, hbs, h⟩ := exceptBind_ok h
    cases h
    intro c hc
    rcases List.mem_cons.mp hc with rfl | hc
    · exact ⟨v, List.mem_cons_self v vs, hb⟩
    · obtain ⟨a, ha, hfa⟩ := ih hbs c hc
      exact ⟨a, List.mem_cons_of_mem v ha, hfa⟩

@[simp]
theorem rankList_length (n : Int) (k : Nat) : (rankList n k).length = k := by
  induction k generalizing n with
  | zero => rfl
  | succ k ih => simp [rankList, ih]

theorem rankList_eq_map_range (k : Nat) :
    ∀ n : Int, rankList n k = (List.range k).map (fun i : Nat => Value.int (n + i)) := by
  induction k with
  | zero => intro n; rfl
  | succ k ih =>
    intro n
    rw [rankList, ih, List.range_succ_eq_map, List.map_cons, List.map_map]
    refine congrArg₂ _ (by simp) (List.map_congr_left ?_)
    intro i _
    simp only [Function.comp_apply]
    refine congrArg _ ?_
    push_cast
    ring

/-- Every column of the table has length `k`. -/
def uniformLen (fd : FormattedData) (k : Nat) : Prop :=
  fd.market.length = k ∧ fd.rank.length = k ∧ fd.name.length = k ∧
  fd.artists.length = k ∧ fd.artists_followers.length = k ∧
  fd.id.length = k ∧ fd.album.length = k ∧ fd.release_date.length = k ∧
  fd.popularity.length = k ∧ fd.acousticness.length = k ∧
  fd.danceability.length = k ∧ fd.duration_ms.length = k ∧
  fd.energy.length = k ∧ fd.instrumentalness.length = k ∧
  fd.liveness.length = k ∧ fd.loudness.length = k ∧
  fd.speechiness.length = k ∧ fd.tempo.length = k ∧ fd.valence.length = k ∧
  fd.end_of_fade_in.length = k ∧ fd.start_of_fade_out.length = k ∧
  fd.sections_number.length = k ∧ fd.segments_number.length = k

theorem uniformLen_empty : uniformLen FormattedData.empty 0 := by
  simp [uniformLen, FormattedData.empty]

theorem uniformLen_marketBlock (cc : String) (n : Int) (ts : List EnrichedTrack) :
    uniformLen (marketBlock cc n ts) ts.length := by
  refine ⟨?_, ?_, ?_, ?_, ?_, ?_, ?_, ?_, ?_, ?_, ?_, ?_, ?_, ?_, ?_, ?_, ?_,
    ?_, ?_, ?_, ?_, ?_, ?_⟩ <;> simp [marketBlock]

theorem uniformLen_append {a b : FormattedData} {j k : Nat}
    (ha : uniformLen a j) (hb : uniformLen b k) :
    uniformLen (a.append b) (j + k) := by
  obtain ⟨a1, a2, a3, a4, a5, a6, a7, a8, a9, a10, a11, a12, a13, a14, a15,
    a16, a17, a18, a19, a20, a21, a22, a23⟩ := ha
  obtain ⟨b1, b2, b3, b4, b5, b6, b7, b8, b9, b10, b11, b12, b13, b14, b15,
    b16, b17, b18, b19, b20, b21, b22, b23⟩ := hb
  refine ⟨?_, ?_, ?_, ?_, ?_, ?_, ?_, ?_, ?_, ?_, ?_, ?_, ?_, ?_, ?_, ?_, ?_,
    ?_, ?_, ?_, ?_, ?_, ?_⟩ <;> simp [*]

theorem uniformLen_format (d : List (String × List EnrichedTrack)) :
    uniformLen (format_extracted_data d) ((d.map (fun p => p.2.length)).sum) := by
  induction d with
  | nil => exact uniformLen_empty
  | cons p d ih =>
    rw [format_extracted_data_cons, List.map_cons, List.sum_cons]
    exact uniformLen_append (uniformLen_marketBlock p.1 1 p.2) ih

theorem uniformLen_columns {fd : FormattedData} {k : Nat} (h : uniformLen fd k) :
    ∀ c ∈ fd.columns, c.2.length = k := by
  obtain ⟨h1, h2, h3, h4, h5, h6, h7, h8, h9, h10, h11, h12, h13, h14, h15,
    h16, h17, h18, h19, h20, h21, h22, h23⟩ := h
  intro c hc
  simp only [FormattedData.columns, List.mem_cons, List.not_mem_nil, or_false] at hc
  rcases hc with rfl | rfl | rfl | rfl | rfl | rfl | rfl | rfl | rfl | rfl | rfl |
    rfl | rfl | rfl | rfl | rfl | rfl | rfl | rfl | rfl | rfl | rfl | rfl <;>
    assumption

theorem format_market_col (d : List (String × List EnrichedTrack)) :
    (format_extracted_data d).market =
      (d.map (fun p => p.2.map (fun _ => Value.str p.1))).flatten := by
  induction d with
  | nil => rfl
  | cons p d ih => simp [format_extracted_data_cons, ih]

theorem format_rank_col (d : List (String × List EnrichedTrack)) :
    (format_extracted_data d).rank =
      (d.map (fun p => rankList 1 p.2.length)).flatten := by
  induction d with
  | nil => rfl
  | cons p d ih => simp [format_extracted_data_cons, ih]

theorem format_artists_col (d : List (String × List EnrichedTrack)) :
    (format_extracted_data d).artists =
      (d.map (fun p => p.2.map (fun t => Value.arr t.artists))).flatten := by
  induction d with
  | nil => rfl
  | cons p d ih => simp [format_extracted_data_cons, ih]

theorem format_artists_followers_col (d : List (String × List EnrichedTrack)) :
    (format_extracted_data d).artists_followers =
      (d.map (fun p => p.2.map (fun t => Value.arr t.artists_followers))).flatten := by
  induction d with
  | nil => rfl
  | cons p d ih => simp [format_extracted_data_cons, ih]

/-- Sample audio features used to instantiate theorems on concrete data. -/
def sampleFeatures : AudioFeatures where
  acousticness := .num (1 / 2)
  danceability := .num (3 / 4)
  duration_ms := .int 201000
  energy := .num (2 / 3)
  instrumentalness := .num 0
  liveness := .num (1 / 10)
  loudness := .num (-6)
  speechiness := .num (1 / 20)
  tempo := .num 120
  valence := .num (1 / 2)

/-- Sample audio-analysis summary for concrete instantiations. -/
def sampleAnalysis : AudioAnalysisSummary where
  end_of_fade_in := .num (1 / 5)
  start_of_fade_out := .num 180
  sections_number := .int 5
  segments_number := .int 50

/-- Sample enriched track with one artist. -/
def sampleTrack1 : EnrichedTrack where
  name := .str "Song A"
  artists := [.str "X"]
  id := .str "a"
  album := .str "Alb"
  release_date := .str "2020"
  artists_followers := [.int 100]
  popularity := .int 80
  features := sampleFeatures
  analysis := sampleAnalysis

/-- Sample enriched track with two artists. -/
def sampleTrack2 : EnrichedTrack where
  name := .str "Song B"
  artists := [.str "Y", .str "Z"]
  id := .str "b"
  album := .str "Alb B"
  release_date := .str "2021-05"
  artists_followers := [.int 7, .int 9]
  popularity := .int 55
  features := sampleFeatures
  analysis := sampleAnalysis

/-- Sample charts mapping: a global chart with one track and one market
with two tracks. -/
def sampleCharts : List (String × List EnrichedTrack) :=
  [("GLOBAL", [sampleTrack1]), ("PL", [sampleTrack2, sampleTrack1])]

/-- C1: for every charts mapping, every column of the
`format_extracted_data` output has the same length, equal to the total
number of tracks summed over all markets; in particular the `market`
column has that length. -/
theorem format_columns_all_total_length
    (d : List (String × List EnrichedTrack)) :
    (format_extracted_data d).market.length = (d.map (fun p => p.2.length)).sum ∧
    ∀ c ∈ (format_extracted_data d).columns,
      c.2.length = (d.map (fun p => p.2.length)).sum :=
  ⟨(uniformLen_format d).1, uniformLen_columns (uniformLen_format d)⟩

/-- Witness for C1 on `sampleCharts` (three tracks in two markets): the
`rank` column is a column of the output and has length `1 + 2 = 3`. -/
theorem format_columns_all_total_length_witness :
    ("rank", (format_extracted_data sampleCharts).rank) ∈
        (format_extracted_data sampleCharts).columns ∧
    (format_extracted_data sampleCharts).rank.length =
        (sampleCharts.map (fun p => p.2.length)).sum ∧
    (sampleCharts.map (fun p => p.2.length)).sum = 3 :=
  ⟨List.Mem.tail _ (List.Mem.head _),
   (format_columns_all_total_length sampleCharts).2 _
     (List.Mem.tail _ (List.Mem.head _)),
   rfl⟩

/-- C2: the `(market, rank)` pairs of the output, in row order, are
exactly the concatenation over the input markets of
`(market, 1), (market, 2), …, (market, n)` where `n` is that market's
track count: ranks are assigned in chart order and restart at 1 for each
market. -/
theorem format_rank_restarts_per_market
    (d : List (String × List EnrichedTrack)) :
    ((format_extracted_data d).market).zip ((format_extracted_data d).rank) =
      (d.map (fun p => (List.range p.2.length).map
        (fun i : Nat => (Value.str p.1, Value.int (i + 1))))).flatten := by
  induction d with
  | nil => rfl
  | cons p d ih =>
    rw [format_extracted_data_cons]
    simp only [FormattedData.append_market, FormattedData.append_rank,
      marketBlock_market, marketBlock_rank]
    rw [List.zip_append (by simp), ih]
    simp only [List.map_cons, List.flatten_cons]
    congr 1
    rw [rankList_eq_map_range,
      show (p.2.map fun _ => Value.str p.1) =
        (List.range p.2.length).map (fun _ => Value.str p.1) by simp [List.map_const'],
      List.zip_map']
    refine List.map_congr_left ?_
    intro i _
    rw [Int.add_comm]

/-- C8: `format_extracted_data` is a pure function of its input: two
calls on the same mapping give identical output, and the underlying loop
run from any explicit accumulator state contributes exactly the output
computed from the input alone, so no hidden state can influence it. -/
theorem format_extracted_data_deterministic
    (d : List (String × List EnrichedTrack)) :
    format_extracted_data d = format_extracted_data d ∧
    ∀ fd : FormattedData,
      d.foldl (fun fd p => formatTracks fd p.1 1 p.2) fd =
        fd.append (format_extracted_data d) :=
  ⟨rfl, foldl_formatTracks_append d⟩

/-- C10: the output always has exactly the 23 fixed columns of the
`formatted_data` dict literal, in its key order, and on the empty mapping
every column is empty. -/
theorem format_column_names_fixed :
    (∀ d : List (String × List EnrichedTrack),
      (format_extracted_data d).columns.map Prod.fst =
        ["market", "rank", "name", "artists", "artists_followers", "id",
         "album", "release_date", "popularity", "acousticness",
         "danceability", "duration_ms", "energy", "instrumentalness",
         "liveness", "loudness", "speechiness", "tempo", "valence",
         "end_of_fade_in", "start_of_fade_out", "sections_number",
         "segments_number"]) ∧
    (format_extracted_data []).columns =
      [("market", []), ("rank", []), ("name", []), ("artists", []),
       ("artists_followers", []), ("id", []), ("album", []),
       ("release_date", []), ("popularity", []), ("acousticness", []),
       ("danceability", []), ("duration_ms", []), ("energy", []),
       ("instrumentalness", []), ("liveness", []), ("loudness", []),
       ("speechiness", []), ("tempo", []), ("valence", []),
       ("end_of_fade_in", []), ("start_of_fade_out", []),
       ("sections_number", []), ("segments_number", [])] :=
  ⟨fun _ => rfl, rfl⟩

theorem extractTrackItem_artists_parallel {gai : Value → Value} {item t : Value}
    (h : extractTrackItem gai item = .ok t) :
    ∃ ns fs, t.getField "artists" = .ok (Value.arr ns) ∧
      t.getField "artists_followers" = .ok (Value.arr fs) ∧
      ns.length = fs.length := by
  unfold extractTrackItem at h
  obtain ⟨track, h1, h⟩ := exceptBind_ok h
  obtain ⟨nameV, h2, h⟩ := exceptBind_ok h
  obtain ⟨artistsV, h3, h⟩ := exceptBind_ok h
  obtain ⟨artistObjs, h4, h⟩ := exceptBind_ok h
  obtain ⟨artistNames, h5, h⟩ := exceptBind_ok h
  obtain ⟨idV, h6, h⟩ := exceptBind_ok h
  obtain ⟨albumV, h7, h⟩ := exceptBind_ok h
  obtain ⟨albumName, h8, h⟩ := exceptBind_ok h
  obtain ⟨albumV2, h9, h⟩ := exceptBind_ok h
  obtain ⟨releaseDate, h10, h⟩ := exceptBind_ok h
  obtain ⟨popularityV, h11, h⟩ := exceptBind_ok h
  obtain ⟨followers, h12, h⟩ := exceptBind_ok h
  cases h
  refine ⟨artistNames, followers, ?_, ?_, ?_⟩
  · simp [Value.getField, lookupField]
  · simp [Value.getField, lookupField]
  · rw [mapE_ok_length h5, mapE_ok_length h12]

/-- Artist response used by concrete instantiations. -/
def sampleArtistResp : Value :=
  .obj [("name", .str "X"), ("followers", .obj [("total", .int 100)])]

/-- Raw playlist-tracks response with a single one-artist track. -/
def sampleRawTracks : Value :=
  .obj [("items", .arr [
    .obj [("track", .obj [("name", .str "Song A"),
      ("artists", .arr [.obj [("name", .str "X"), ("id", .str "x1")]]),
      ("id", .str "a"),
      ("album", .obj [("name", .str "Alb"), ("release_date", .str "2020")]),
      ("popularity", .int 80)])]])]

/-- Track record that `extract_playlist_tracks` builds from `sampleRawTracks`. -/
def sampleTrackObj : Value :=
  .obj [("name", .str "Song A"), ("artists", .arr [.str "X"]),
    ("id", .str "a"), ("album", .str "Alb"), ("release_date", .str "2020"),
    ("artists_followers", .arr [.int 100]), ("popularity", .int 80)]

/-- C3: every track record built by `extract_playlist_tracks` carries an
`artists_followers` array of the same length as its `artists` array (one
follower count per artist, in artist order), and in the flattened output
the `artists` and `artists_followers` entries of every row are arrays of
equal length whenever the input tracks satisfy the invariant. -/
theorem extract_playlist_tracks_artists_parallel :
    (∀ (gtp gai : Value → Value) (pid : Value) (tracks : List Value),
      extract_playlist_tracks gtp gai pid = .ok tracks →
      ∀ t ∈ tracks, ∃ ns fs, t.getField "artists" = .ok (Value.arr ns) ∧
        t.getField "artists_followers" = .ok (Value.arr fs) ∧
        ns.length = fs.length) ∧
    (∀ d : List (String × List EnrichedTrack),
      (∀ p ∈ d, ∀ t ∈ p.2, t.artists.length = t.artists_followers.length) →
      ∀ pr ∈ ((format_extracted_data d).artists).zip
          ((format_extracted_data d).artists_followers),
        ∃ ns fs, pr = (Value.arr ns, Value.arr fs) ∧ ns.length = fs.length) := by
  constructor
  · intro gtp gai pid tracks h t ht
    unfold extract_playlist_tracks at h
    obtain ⟨itemsV, h1, h⟩ := exceptBind_ok h
    obtain ⟨items, h2, h⟩ := exceptBind_ok h
    obtain ⟨a, _, ha⟩ := mapE_ok_mem h t ht
    exact extractTrackItem_artists_parallel ha
  · intro d
    induction d with
    | nil =>
      intro _ pr hpr
      simp [format_extracted_data_nil, FormattedData.empty] at hpr
    | cons p d ih =>
      intro h pr hpr
      rw [format_extracted_data_cons] at hpr
      simp only [FormattedData.append_artists,
        FormattedData.append_artists_followers, marketBlock_artists,
        marketBlock_artists_followers] at hpr
      rw [List.zip_append (by simp), List.zip_map'] at hpr
      rcases List.mem_append.mp hpr with hin | hin
      · obtain ⟨t, ht, rfl⟩ := List.mem_map.mp hin
        exact ⟨t.artists, t.artists_followers, rfl,
          h p (List.mem_cons_self _ _) t ht⟩
      · exact ih (fun q hq t ht => h q (List.mem_cons_of_mem _ hq) t ht) pr hin

/-- Witness for C3: on the concrete single-track playlist response the
extraction succeeds, the built record has `artists` and
`artists_followers` arrays, and their lengths agree (both 1); on
`sampleCharts` the first flattened row likewise pairs equal-length
arrays. -/
theorem extract_playlist_tracks_artists_parallel_witness :
    (extract_playlist_tracks (fun _ => sampleRawTracks)
        (fun _ => sampleArtistResp) .null = .ok [sampleTrackObj]) ∧
    (∃ ns fs, sampleTrackObj.getField "artists" = .ok (Value.arr ns) ∧
      sampleTrackObj.getField "artists_followers" = .ok (Value.arr fs) ∧
      ns.length = fs.length) ∧
    (∃ ns fs, (Value.arr sampleTrack1.artists,
        Value.arr sampleTrack1.artists_followers) = (Value.arr ns, Value.arr fs) ∧
      ns.length = fs.length) := by
  have hrun : extract_playlist_tracks (fun _ => sampleRawTracks)
      (fun _ => sampleArtistResp) .null = .ok [sampleTrackObj] := by rfl
  refine ⟨hrun, extract_playlist_tracks_artists_parallel.1 _ _ _ _ hrun
    sampleTrackObj (List.Mem.head _), ?_⟩
  refine extract_playlist_tracks_artists_parallel.2 sampleCharts ?_ _ ?_
  · intro q hq t ht
    simp only [sampleCharts, List.mem_cons, List.not_mem_nil, or_false] at hq
    rcases hq with rfl | rfl <;>
      · simp only [List.mem_cons, List.not_mem_nil, or_false] at ht
        rcases ht with rfl | ht <;> first | rfl | (rcases ht with rfl; rfl)
  · exact List.Mem.head _

/-- C6: the audio-analysis summary copies `end_of_fade_in` and
`start_of_fade_out` from the response's `track` object and sets
`sections_number` and `segments_number` to the lengths of the `sections`
and `segments` arrays of the response. -/
theorem extract_track_audio_analysis_counts
    (get_track_audio_analysis : Value → Value) (track_id : Value)
    (trackV fadeIn fadeOut : Value) (sections segments : List Value)
    (h1 : (get_track_audio_analysis track_id).getField "track" = .ok trackV)
    (h2 : trackV.getField "end_of_fade_in" = .ok fadeIn)
    (h3 : trackV.getField "start_of_fade_out" = .ok fadeOut)
    (h4 : (get_track_audio_analysis track_id).getField "sections" =
        .ok (.arr sections))
    (h5 : (get_track_audio_analysis track_id).getField "segments" =
        .ok (.arr segments)) :
    extract_track_audio_analysis get_track_audio_analysis track_id =
      .ok (.obj [("end_of_fade_in", fadeIn), ("start_of_fade_out", fadeOut),
        ("sections_number", .int sections.length),
        ("segments_number", .int segments.length)]) := by
  simp [extract_track_audio_analysis, h1, h2, h3, h4, h5, Value.getArr]

/-- Audio-analysis response used by concrete instantiations: two
sections and three segments. -/
def sampleAnalysisResp : Value :=
  .obj [("track", .obj [("end_of_fade_in", .num (1 / 5)),
      ("start_of_fade_out", .num 180), ("loudness", .num (-7))]),
    ("sections", .arr [.null, .null]),
    ("segments", .arr [.null, .null, .null])]

/-- Witness for C6: on `sampleAnalysisResp` the summary reports 2
sections and 3 segments together with the two fade scalars. -/
theorem extract_track_audio_analysis_counts_witness :
    extract_track_audio_analysis (fun _ => sampleAnalysisResp) .null =
      .ok (.obj [("end_of_fade_in", .num (1 / 5)), ("start_of_fade_out", .num 180),
        ("sections_number", .int 2), ("segments_number", .int 3)]) :=
  extract_track_audio_analysis_counts (fun _ => sampleAnalysisResp) .null
    _ _ _ [.null, .null] [.null, .null, .null] rfl rfl rfl rfl rfl

theorem findTop50Global_first (it : Value) (rest : List Value)
    (nameS : String) (idV : Value)
    (hname : it.getField "name" = .ok (.str nameS))
    (hmatch : globalNameMatches nameS = true)
    (hid : it.getField "id" = .ok idV) :
    ∀ pre : List Value,
      (∀ a ∈ pre, ∃ s, a.getField "name" = .ok (.str s) ∧
        globalNameMatches s = false) →
      findTop50Global (pre ++ it :: rest) =
        .ok (some (.obj [("name", .str nameS), ("id", idV)])) := by
  intro pre
  induction pre with
  | nil =>
    intro _
    simp [findTop50Global, hname, hmatch, hid, Value.getStr]
  | cons a pre ih =>
    intro hpre
    obtain ⟨s, hs, hsf⟩ := hpre a (List.mem_cons_self _ _)
    simp [findTop50Global, hs, hsf, Value.getStr,
      ih (fun b hb => hpre b (List.mem_cons_of_mem _ hb))]

/-- C4: `extract_top50_global` scans the returned playlist items in API
order and returns the name/id of the first item whose name contains both
the literal "Top 50" and the Polish token "Świat", skipping every earlier
item (whose name does not satisfy the predicate). -/
theorem extract_top50_global_returns_first_match
    (get_playlists_from_category : String → String → Value)
    (category_id : String) (pls itemsV : Value) (pre rest : List Value)
    (it : Value) (nameS : String) (idV : Value)
    (h1 : (get_playlists_from_category category_id "PL").getField "playlists" =
        .ok pls)
    (h2 : pls.getField "items" = .ok itemsV)
    (h3 : itemsV.getArr = .ok (pre ++ it :: rest))
    (hpre : ∀ a ∈ pre, ∃ s, a.getField "name" = .ok (.str s) ∧
        globalNameMatches s = false)
    (hname : it.getField "name" = .ok (.str nameS))
    (hmatch : globalNameMatches nameS = true)
    (hid : it.getField "id" = .ok idV) :
    extract_top50_global get_playlists_from_category category_id =
      .ok (some (.obj [("name", .str nameS), ("id", idV)])) := by
  simp [extract_top50_global, h1, h2, h3,
    findTop50Global_first it rest nameS idV hname hmatch hid pre hpre]

/-- Playlist listing of the spec's global-selection example: a USA chart
followed by the Polish-localised world chart. -/
def sampleGlobalListing : Value :=
  .obj [("playlists", .obj [("items", .arr [
    .obj [("name", .str "Top 50 - USA"), ("id", .str "u")],
    .obj [("name", .str "Top 50 - Świat"), ("id", .str "w")]])])]

/-- Witness for C4: on the spec's example listing the locator skips
"Top 50 - USA" and returns the second item, "Top 50 - Świat". -/
theorem extract_top50_global_returns_first_match_witness :
    extract_top50_global (fun _ _ => sampleGlobalListing) CATEGORY_ID =
      .ok (some (.obj [("name", .str "Top 50 - Świat"), ("id", .str "w")])) :=
  extract_top50_global_returns_first_match (fun _ _ => sampleGlobalListing)
    CATEGORY_ID _ _ [.obj [("name", .str "Top 50 - USA"), ("id", .str "u")]] []
    (.obj [("name", .str "Top 50 - Świat"), ("id", .str "w")])
    "Top 50 - Świat" (.str "w") rfl rfl rfl
    (by
      intro a ha
      simp only [List.mem_cons, List.not_mem_nil, or_false] at ha
      subst ha
      exact ⟨"Top 50 - USA", rfl, rfl⟩)
    rfl rfl rfl

theorem findTop50Market_first (it : Value) (rest : List Value)
    (descS : String) (nameV idV : Value)
    (hdesc : it.getField "description" = .ok (.str descS))
    (hmatch : marketDescMatches descS = true)
    (hname : it.getField "name" = .ok nameV)
    (hid : it.getField "id" = .ok idV) :
    ∀ pre : List Value,
      (∀ a ∈ pre, ∃ s, a.getField "description" = .ok (.str s) ∧
        marketDescMatches s = false) →
      findTop50Market (pre ++ it :: rest) =
        .ok (some (.obj [("name", nameV), ("id", idV)])) := by
  intro pre
  induction pre with
  | nil =>
    intro _
    simp [findTop50Market, hdesc, hmatch, hname, hid, Value.getStr]
  | cons a pre ih =>
    intro hpre
    obtain ⟨s, hs, hsf⟩ := hpre a (List.mem_cons_self _ _)
    simp [findTop50Market, hs, hsf, Value.getStr,
      ih (fun b hb => hpre b (List.mem_cons_of_mem _ hb))]

/-- C5: `extract_top50_playlist` scans the returned playlist items in API
order and returns the name/id of the first item whose description
contains "most played tracks" and contains neither "Global" nor "USA",
skipping every earlier item (whose description fails the predicate). -/
theorem extract_top50_playlist_returns_first_match
    (get_playlists_from_category : String → String → Value)
    (category_id country_code : String) (pls itemsV : Value)
    (pre rest : List Value) (it : Value) (descS : String) (nameV idV : Value)
    (h1 : (get_playlists_from_category category_id country_code).getField
        "playlists" = .ok pls)
    (h2 : pls.getField "items" = .ok itemsV)
    (h3 : itemsV.getArr = .ok (pre ++ it :: rest))
    (hpre : ∀ a ∈ pre, ∃ s, a.getField "description" = .ok (.str s) ∧
        marketDescMatches s = false)
    (hdesc : it.getField "description" = .ok (.str descS))
    (hmatch : marketDescMatches descS = true)
    (hname : it.getField "name" = .ok nameV)
    (hid : it.getField "id" = .ok idV) :
    extract_top50_playlist get_playlists_from_category category_id country_code =
      .ok (some (.obj [("name", nameV), ("id", idV)])) := by
  simp [extract_top50_playlist, h1, h2, h3,
    findTop50Market_first it rest descS nameV idV hdesc hmatch hname hid pre hpre]

/-- Playlist listing of the spec's per-market-selection example: a Global
chart description followed by a German one. -/
def sampleMarketListing : Value :=
  .obj [("playlists", .obj [("items", .arr [
    .obj [("name", .str "Top 50 - Global"), ("id", .str "g"),
      ("description", .str "Your daily update of the most played tracks right now - Global")],
    .obj [("name", .str "Top 50 - Germany"), ("id", .str "d"),
      ("description", .str "Your daily update of the most played tracks in Germany")]])])]

/-- Witness for C5: on the spec's example listing the locator skips the
item whose description mentions "Global" and returns the second item. -/
theorem extract_top50_playlist_returns_first_match_witness :
    extract_top50_playlist (fun _ _ => sampleMarketListing) CATEGORY_ID "DE" =
      .ok (some (.obj [("name", .str "Top 50 - Germany"), ("id", .str "d")])) :=
  extract_top50_playlist_returns_first_match (fun _ _ => sampleMarketListing)
    CATEGORY_ID "DE" _ _
    [.obj [("name", .str "Top 50 - Global"), ("id", .str "g"),
      ("description", .str "Your daily update of the most played tracks right now - Global")]]
    []
    (.obj [("name", .str "Top 50 - Germany"), ("id", .str "d"),
      ("description", .str "Your daily update of the most played tracks in Germany")])
    "Your daily update of the most played tracks in Germany"
    (.str "Top 50 - Germany") (.str "d") rfl rfl rfl
    (by
      intro a ha
      simp only [List.mem_cons, List.not_mem_nil, or_false] at ha
      subst ha
      exact ⟨"Your daily update of the most played tracks right now - Global",
        rfl, rfl⟩)
    rfl rfl rfl rfl

/-- Artist entry of a raw track item. -/
def mkArtist (anm aid : Value) : Value := .obj [("name", anm), ("id", aid)]

/-- One item of a `tracks_raw_data['items']` listing with the nested
shape that `extract_playlist_tracks` reads. -/
def mkTrackItem (nm : Value) (artists : List Value) (idv alb rd pop : Value) :
    Value :=
  .obj [("track", .obj [("name", nm), ("artists", .arr artists), ("id", idv),
    ("album", .obj [("name", alb), ("release_date", rd)]),
    ("popularity", pop)])]

/-- C7: a missing expected key makes the extraction operations fail with
an error instead of substituting a default.  First part: when the
follower lookup (`['followers']['total']`) fails for a track's artist,
`extract_playlist_tracks` propagates that error.  Second and third parts:
a missing key in a features or audio-analysis response makes
`extract_track_features` / `extract_track_audio_analysis` propagate the
error. -/
theorem missing_key_aborts :
    (∀ (gtp gai : Value → Value) (pid nm anm aid idv alb rd pop : Value)
        (e : String),
      gtp pid = .obj [("items",
        .arr [mkTrackItem nm [mkArtist anm aid] idv alb rd pop])] →
      ((gai aid).getField "followers" >>= fun fol => fol.getField "total") =
        .error e →
      extract_playlist_tracks gtp gai pid = .error e) ∧
    (∀ (gtf : Value → Value) (track_id : Value) (e : String),
      (gtf track_id).getField "acousticness" = .error e →
      extract_track_features gtf track_id = .error e) ∧
    (∀ (gta : Value → Value) (track_id : Value) (e : String),
      (gta track_id).getField "track" = .error e →
      extract_track_audio_analysis gta track_id = .error e) := by
  refine ⟨?_, ?_, ?_⟩
  · intro gtp gai pid nm anm aid idv alb rd pop e h0 h
    simp [extract_playlist_tracks, h0, mkTrackItem, mkArtist, extractTrackItem,
      mapE, Value.getField, lookupField, Value.getArr]
    exact exceptBind_error_assoc h
  · intro gtf track_id e h
    simp [extract_track_features, h]
  · intro gta track_id e h
    simp [extract_track_audio_analysis, h]

/-- Artist response missing the `followers` key. -/
def brokenArtistResp : Value := .obj [("name", .str "X")]

/-- Witness for C7: with an artist response lacking `followers`, the
follower lookup and the whole playlist extraction fail with the
`KeyError`, and features / audio-analysis responses missing a key fail
likewise. -/
theorem missing_key_aborts_witness :
    (((fun _ : Value => brokenArtistResp) (Value.str "x1")).getField "followers" >>=
        fun fol => fol.getField "total") = .error "KeyError: followers" ∧
    extract_playlist_tracks
        (fun _ => Value.obj [("items", .arr [mkTrackItem (.str "Song A")
          [mkArtist (.str "X") (.str "x1")] (.str "a") (.str "Alb")
          (.str "2020") (.int 80)])])
        (fun _ => brokenArtistResp) .null = .error "KeyError: followers" ∧
    extract_track_features (fun _ => .obj []) .null =
      .error "KeyError: acousticness" ∧
    extract_track_audio_analysis (fun _ => .obj []) .null =
      .error "KeyError: track" :=
  ⟨rfl,
   missing_key_aborts.1 _ (fun _ => brokenArtistResp) .null (.str "Song A")
     (.str "X") (.str "x1") (.str "a") (.str "Alb") (.str "2020") (.int 80)
     "KeyError: followers" rfl rfl,
   missing_key_aborts.2.1 (fun _ => .obj []) .null "KeyError: acousticness" rfl,
   missing_key_aborts.2.2 (fun _ => .obj []) .null "KeyError: track" rfl⟩

/-- C9: when no playlist item satisfies the selection predicate, both
locator loops return the absent result (`None`), and the aggregator
`extract_raw_data` then aborts the whole run with an error when it
subscripts that absent result, rather than skipping the market: for the
global chart at the start of the run, and for a per-market chart inside
the country loop. -/
theorem locator_no_match_aborts_run :
    (∀ items : List Value,
      (∀ a ∈ items, ∃ s, a.getField "name" = .ok (.str s) ∧
        globalNameMatches s = false) →
      findTop50Global items = .ok none) ∧
    (∀ items : List Value,
      (∀ a ∈ items, ∃ s, a.getField "description" = .ok (.str s) ∧
        marketDescMatches s = false) →
      findTop50Market items = .ok none) ∧
    (∀ (api : SpotifyAPI) (countries : List String),
      extract_top50_global api.get_playlists_from_category CATEGORY_ID =
        .ok none →
      ∃ e, extract_raw_data api countries = .error e) ∧
    (∀ (api : SpotifyAPI) (country : String) (cs : List String)
        (acc : List (String × List Value)),
      extract_top50_playlist api.get_playlists_from_category CATEGORY_ID
        country = .ok none →
      ∃ e, processCountries api (country :: cs) acc = .error e) := by
  refine ⟨?_, ?_, ?_, ?_⟩
  · intro items
    induction items with
    | nil => intro _; rfl
    | cons a items ih =>
      intro h
      obtain ⟨s, hs, hsf⟩ := h a (List.mem_cons_self _ _)
      simp [findTop50Global, hs, hsf, Value.getStr,
        ih (fun b hb => h b (List.mem_cons_of_mem _ hb))]
  · intro items
    induction items with
    | nil => intro _; rfl
    | cons a items ih =>
      intro h
      obtain ⟨s, hs, hsf⟩ := h a (List.mem_cons_self _ _)
      simp [findTop50Market, hs, hsf, Value.getStr,
        ih (fun b hb => h b (List.mem_cons_of_mem _ hb))]
  · intro api countries h
    exact ⟨"TypeError: NoneType is not subscriptable at key id",
      by simp [extract_raw_data, h, subscriptOpt]⟩
  · intro api country cs acc h
    exact ⟨"TypeError: NoneType is not subscriptable at key name",
      by simp [processCountries, processCountry, h, subscriptOpt]⟩

/-- Category listing with no playlist items at all. -/
def emptyListing : Value := .obj [("playlists", .obj [("items", .arr [])])]

/-- API stub whose category listing is always empty. -/
def emptyAPI : SpotifyAPI where
  get_playlists_from_category := fun _ _ => emptyListing
  get_tracks_from_playlist := fun _ => .null
  get_track_features := fun _ => .null
  get_track_audio_analysis := fun _ => .null
  get_artist_info := fun _ => .null

/-- Witness for C9: with an empty listing both locators return `None`,
`extract_raw_data` aborts, and the country loop aborts on its first
market. -/
theorem locator_no_match_aborts_run_witness :
    findTop50Global [] = .ok none ∧
    findTop50Market [] = .ok none ∧
    (∃ e, extract_raw_data emptyAPI [] = .error e) ∧
    (∃ e, processCountries emptyAPI ["DE"] [] = .error e) :=
  ⟨locator_no_match_aborts_run.1 [] (by simp),
   locator_no_match_aborts_run.2.1 [] (by simp),
   locator_no_match_aborts_run.2.2.1 emptyAPI [] rfl,
   locator_no_match_aborts_run.2.2.2 emptyAPI "DE" [] [] rfl⟩

end Spotify
